import Mathlib

/-!
Shallow embedding of the appointment voice-agent backend
(`src/backend/db.py`, `src/backend/tools.py`, `src/backend/agent.py`).

The persistent store (Supabase) is modelled as an explicit `DB` value
holding the four tables; each `db.py` function becomes a pure Lean
function taking and (for mutations) returning a `DB`.  Row ids are
assigned by the external store; we model its id assignment with a
deterministic fresh-id function.  Network event emission
(`publish_data`) is fire-and-forget output with no effect on any state
we model, so it is dropped from the tool-layer functions; the pipeline
sequencer's broadcasts, which claims do talk about, are modelled
separately as an explicit event trace.
-/

namespace VoiceAgent

/-- Status column of the appointments table: the code only ever writes
the strings "booked" and "cancelled". -/
inductive ApptStatus where
  | booked
  | cancelled
deriving DecidableEq, Repr

/-- Row of the users table. -/
structure User where
  id : String
  contact_number : String
  name : Option String
  email : Option String
deriving DecidableEq, Repr

/-- Row of the appointments table.  Ownership is by `contact_number`
(a natural key), not by a foreign key to `User.id`. -/
structure Appointment where
  id : String
  contact_number : String
  appointment_time : String
  details : String
  status : ApptStatus
deriving DecidableEq, Repr

/-- Row of the session_memory table (fields the code reads/writes). -/
structure SessionRecord where
  session_id : String
  user_id : Option String
deriving DecidableEq, Repr

/-- Row of the messages table. -/
structure ChatMessage where
  user_id : String
  role : String
  content : String
deriving DecidableEq, Repr

/-- The persistent store: the four tables the backend touches. -/
structure DB where
  users : List User
  appointments : List Appointment
  sessions : List SessionRecord
  messages : List ChatMessage
deriving DecidableEq, Repr

/-- Model of the store's id assignment for inserted user rows. -/
def freshUserId (db : DB) : String :=
  "user-" ++ toString db.users.length

/-- Model of the store's id assignment for inserted appointment rows. -/
def freshApptId (db : DB) : String :=
  "appt-" ++ toString db.appointments.length

/-- db.py get_user_by_contact: first users row with this contact_number. -/
def get_user_by_contact (db : DB) (contact_number : String) : Option User :=
  (db.users.filter (fun u => u.contact_number == contact_number)).head?

/-- db.py get_user_by_email: first users row with this email. -/
def get_user_by_email (db : DB) (email : String) : Option User :=
  (db.users.filter (fun u => u.email == some email)).head?

/-- db.py get_user_by_contact_or_email: contact number first, then email. -/
def get_user_by_contact_or_email (db : DB) (identifier : String) : Option User :=
  match get_user_by_contact db identifier with
  | some user => some user
  | none => get_user_by_email db identifier

/-- db.py create_user: inserts a users row; the email column is set only
when the argument is truthy (Python `if email:`). -/
def create_user (db : DB) (contact_number : String) (name : Option String)
    (email : Option String) : Option User × DB :=
  let emailField : Option String :=
    match email with
    | some e => if e == "" then none else some e
    | none => none
  let newUser : User :=
    { id := freshUserId db, contact_number := contact_number,
      name := name, email := emailField }
  (some newUser, { db with users := db.users ++ [newUser] })

/-- db.py get_user_by_id: first users row with this id. -/
def get_user_by_id (db : DB) (user_id : String) : Option User :=
  (db.users.filter (fun u => u.id == user_id)).head?

/-- View of an appointment row as returned by db.py get_appointments
(renames appointment_time to start_time). -/
structure ApptView where
  id : String
  start_time : String
  status : ApptStatus
  details : String
deriving DecidableEq, Repr

/-- db.py get_appointments: resolves the user row by id, then returns
only the booked appointments whose contact_number matches that row. -/
def get_appointments (db : DB) (user_id : String) : List ApptView :=
  match get_user_by_id db user_id with
  | none => []
  | some user =>
    (db.appointments.filter (fun a =>
        a.contact_number == user.contact_number && a.status == ApptStatus.booked)).map
      (fun a =>
        { id := a.id, start_time := a.appointment_time,
          status := a.status, details := a.details })

/-- db.py create_appointment: resolves the user row, then inserts a
booked appointment row owned by that row's contact_number; details is
the summary when truthy, else the default duration string. -/
def create_appointment (db : DB) (user_id : String) (start_time : String)
    (duration_mins : Nat) (summary : Option String) : Option Appointment × DB :=
  match get_user_by_id db user_id with
  | none => (none, db)
  | some user =>
    let details_text : String :=
      match summary with
      | some s => if s == "" then toString duration_mins ++ " minute appointment" else s
      | none => toString duration_mins ++ " minute appointment"
    let appt : Appointment :=
      { id := freshApptId db, contact_number := user.contact_number,
        appointment_time := start_time, details := details_text,
        status := ApptStatus.booked }
    (some appt, { db with appointments := db.appointments ++ [appt] })

/-- db.py reschedule_appointment: updates appointment_time on rows
matching the id AND status=booked; returns the first updated row. -/
def reschedule_appointment (db : DB) (appointment_id : String)
    (new_time : String) : Option Appointment × DB :=
  let hit : Appointment → Bool :=
    fun a => a.id == appointment_id && a.status == ApptStatus.booked
  let updatedRows :=
    (db.appointments.filter hit).map (fun a => { a with appointment_time := new_time })
  let table :=
    db.appointments.map (fun a => if hit a then { a with appointment_time := new_time } else a)
  (updatedRows.head?, { db with appointments := table })

/-- db.py cancel_appointment: sets status=cancelled on rows matching the
id (no status filter); returns the list of updated rows. -/
def cancel_appointment (db : DB) (appointment_id : String) :
    List Appointment × DB :=
  let hit : Appointment → Bool := fun a => a.id == appointment_id
  let updatedRows :=
    (db.appointments.filter hit).map (fun a => { a with status := ApptStatus.cancelled })
  let table :=
    db.appointments.map (fun a => if hit a then { a with status := ApptStatus.cancelled } else a)
  (updatedRows, { db with appointments := table })

/-- db.py check_availability: builds the datetime string from date and
time slot and returns true iff no booked appointment sits at it. -/
def check_availability (db : DB) (date : String) (time_slot : String) : Bool :=
  let datetime_str := date ++ "T" ++ time_slot ++ ":00"
  (db.appointments.filter (fun a =>
      a.appointment_time == datetime_str && a.status == ApptStatus.booked)).length == 0

/-- db.py save_message: inserts a messages row. -/
def save_message (db : DB) (user_id : String) (role : String)
    (content : String) : DB :=
  { db with messages := db.messages ++ [⟨user_id, role, content⟩] }

/-- db.py update_session_user: sets user_id on session rows matching the
session_id; returns the first updated row. -/
def update_session_user (db : DB) (session_id : String) (user_id : String) :
    Option SessionRecord × DB :=
  let hit : SessionRecord → Bool := fun s => s.session_id == session_id
  let updatedRows :=
    (db.sessions.filter hit).map (fun s => { s with user_id := some user_id })
  let table :=
    db.sessions.map (fun s => if hit s then { s with user_id := some user_id } else s)
  (updatedRows.head?, { db with sessions := table })

/-!
Tool dispatch layer (`src/backend/tools.py`).  An `AgentTools` instance
carries `self._user` and the chat context it shares with the agent; the
room handle only feeds `publish_data` and is dropped.  Each tool method
becomes a function from tool state and store to the returned string,
the updated tool state and the updated store.
-/

/-- agent.py PersistentChatContext: in-memory turns plus the user id
used for message persistence (None until identification). -/
structure ChatCtx where
  user_id : Option String
  turns : List (String × String)
deriving DecidableEq, Repr

/-- agent.py PersistentChatContext.__init__: no user bound yet. -/
def ChatCtx.init : ChatCtx := { user_id := none, turns := [] }

/-- agent.py PersistentChatContext.set_user_id. -/
def ChatCtx.set_user_id (ctx : ChatCtx) (user_id : String) : ChatCtx :=
  { ctx with user_id := some user_id }

/-- agent.py PersistentChatContext.add_message: always appends the turn
to the in-memory context; fires save_message only when self.user_id is
truthy (a non-empty string) at the time the turn is added. -/
def ChatCtx.add_message (ctx : ChatCtx) (db : DB) (role : String)
    (content : String) : ChatCtx × DB :=
  let ctx' := { ctx with turns := ctx.turns ++ [(role, content)] }
  match ctx'.user_id with
  | some uid => if uid == "" then (ctx', db) else (ctx', save_message db uid role content)
  | none => (ctx', db)

/-- tools.py AgentTools mutable state: `self._user`, `self._session_id`
and the shared chat context. -/
structure ToolsState where
  user : Option User
  session_id : String
  chat : ChatCtx
deriving DecidableEq, Repr

/-- tools.py AgentTools.identify_user: looks the identifier up by
contact or email; on a hit it rebinds self._user, tags the session row
and sets the chat-context user id; it never creates a user. -/
def identify_user (st : ToolsState) (db : DB) (identifier : String) :
    String × ToolsState × DB :=
  match get_user_by_contact_or_email db identifier with
  | none =>
    ("No user found with identifier " ++ identifier ++
       ". The user needs to create an account first.", st, db)
  | some user =>
    let st1 := { st with user := some user }
    let (_, db1) := update_session_user db st1.session_id user.id
    let st2 := { st1 with chat := st1.chat.set_user_id user.id }
    let nm := user.name.getD "Guest"
    ("User identified: " ++ nm ++ " (ID: " ++ user.id ++ ").", st2, db1)

/-- tools.py AgentTools.create_user_account: creates the user with
name = first_name + " " + last_name, binds it as self._user and sets it
as the chat-context identity (it does not touch the session row). -/
def create_user_account (st : ToolsState) (db : DB) (contact_number : String)
    (first_name : String) (last_name : String) (email : String) :
    String × ToolsState × DB :=
  let full_name := first_name ++ " " ++ last_name
  let (userOpt, db1) := create_user db contact_number (some full_name) (some email)
  match userOpt with
  | some user =>
    let st1 := { st with user := some user, chat := st.chat.set_user_id user.id }
    ("Account created successfully! Welcome " ++ full_name ++
       ". Your information has been securely saved.", st1, db1)
  | none =>
    ("I\x27m sorry, there was an error creating your account. Please try again.",
      st, db1)

/-- tools.py AgentTools.fetch_slots: returns a hard-coded slot list. -/
def fetch_slots (st : ToolsState) (db : DB) : String × ToolsState × DB :=
  ("Available slots: Tomorrow at 10:00 AM, Tomorrow at 2:00 PM, and Friday at 11:00 AM.",
    st, db)

/-- tools.py AgentTools.book_appointment: requires self._user; inserts
via create_appointment with no summary. -/
def book_appointment (st : ToolsState) (db : DB) (start_time : String)
    (duration : Nat) : String × ToolsState × DB :=
  match st.user with
  | none => ("Please identify the user first before booking.", st, db)
  | some user =>
    let (apptOpt, db1) := create_appointment db user.id start_time duration none
    match apptOpt with
    | some _ => ("Appointment booked successfully for " ++ start_time ++ ".", st, db1)
    | none => ("Failed to book appointment.", st, db1)

/-- tools.py AgentTools.reschedule_user_appointment: requires
self._user, checks the id against the caller's active appointments,
then updates via reschedule_appointment. -/
def reschedule_user_appointment (st : ToolsState) (db : DB)
    (appointment_id : String) (new_time : String) : String × ToolsState × DB :=
  match st.user with
  | none => ("Please identify the user first before rescheduling.", st, db)
  | some user =>
    let user_appointments := get_appointments db user.id
    let appointment_exists := user_appointments.any (fun a => a.id == appointment_id)
    if !appointment_exists then
      ("I couldn\x27t find that appointment. Please check your appointments and try again.",
        st, db)
    else
      let (result, db1) := reschedule_appointment db appointment_id new_time
      match result with
      | some _ =>
        ("Your appointment has been rescheduled to " ++ new_time ++ ".", st, db1)
      | none =>
        ("I\x27m sorry, there was an error rescheduling your appointment. Please try again.",
          st, db1)

/-- tools.py AgentTools.retrieve_appointments: requires self._user;
lists the caller's active appointments. -/
def retrieve_appointments (st : ToolsState) (db : DB) :
    String × ToolsState × DB :=
  match st.user with
  | none => ("Please identify the user first.", st, db)
  | some user =>
    let appts := get_appointments db user.id
    if appts.isEmpty then ("No active appointments found.", st, db)
    else
      let summary := String.intercalate "\n"
        (appts.map (fun a =>
          "- Appointment on " ++ a.start_time ++ " - " ++ a.details ++
            " (ID: " ++ a.id ++ ")"))
      let n := appts.length
      ("Found " ++ toString n ++ " active appointment(s):\n" ++ summary, st, db)

/-- tools.py AgentTools.cancel_user_appointment: requires self._user,
checks the id against the caller's active appointments, then updates
via cancel_appointment. -/
def cancel_user_appointment (st : ToolsState) (db : DB)
    (appointment_id : String) : String × ToolsState × DB :=
  match st.user with
  | none =>
    ("Please identify the user first before canceling an appointment.", st, db)
  | some user =>
    let user_appointments := get_appointments db user.id
    let appointment_exists := user_appointments.any (fun a => a.id == appointment_id)
    if !appointment_exists then
      ("I couldn\x27t find an active appointment with that ID. Please check your appointments and try again.",
        st, db)
    else
      let (result, db1) := cancel_appointment db appointment_id
      if !result.isEmpty then
        ("Your appointment has been cancelled successfully. Is there anything else I can help you with?",
          st, db1)
      else
        ("I\x27m sorry, there was an error cancelling your appointment. Please try again or contact support.",
          st, db1)

/-!
Pipeline sequencer (`src/backend/agent.py` entrypoint).  The externally
observable startup behaviour is the ordered trace of status broadcasts,
session start, sleeps and the greeting.  The store connectivity probe
and the avatar stage depend on external collaborators, so their
outcomes are oracle inputs; everything else is the fixed code path.
-/

/-- Observable startup steps of the entrypoint. -/
inductive PipeEvent where
  | broadcast (component : String) (status : String)
  | sessionStarted
  | sleep (seconds : Nat)
  | greeting
deriving DecidableEq, Repr

/-- Outcome of the store connectivity probe (get_session try/except). -/
inductive StoreProbe where
  | ok
  | down
deriving DecidableEq, Repr

/-- Outcome of `asyncio.wait_for(avatar.start(...), timeout=20.0)`. -/
inductive AvatarOutcome where
  | success
  | timeout
  | error
deriving DecidableEq, Repr

/-- agent.py: the fixed avatar-start timeout, in seconds
(`timeout=20.0`). -/
def avatarTimeoutSeconds : Nat := 20

/-- The broadcast status that resolves the avatar stage on each
outcome: ready on success, unavailable on timeout, error on exception. -/
def avatarResolution : AvatarOutcome → String
  | AvatarOutcome.success => "ready"
  | AvatarOutcome.timeout => "unavailable"
  | AvatarOutcome.error => "error"

/-- agent.py entrypoint, from STT initialization to the greeting: the
observable event trace as a function of the probe and avatar oracles. -/
def pipelineTrace (probe : StoreProbe) (avatar : AvatarOutcome) : List PipeEvent :=
  [PipeEvent.broadcast "stt" "initializing", PipeEvent.broadcast "stt" "ready",
   PipeEvent.broadcast "llm" "initializing", PipeEvent.broadcast "llm" "ready",
   PipeEvent.broadcast "tts" "initializing", PipeEvent.broadcast "tts" "ready",
   PipeEvent.broadcast "database" "initializing"] ++
  (match probe with
   | StoreProbe.ok => [PipeEvent.broadcast "database" "ready"]
   | StoreProbe.down => [PipeEvent.broadcast "database" "error"]) ++
  [PipeEvent.sessionStarted, PipeEvent.sleep 1,
   PipeEvent.broadcast "avatar" "initializing"] ++
  (match avatar with
   | AvatarOutcome.success =>
     [PipeEvent.broadcast "avatar" "ready", PipeEvent.sleep 2, PipeEvent.sleep 1]
   | AvatarOutcome.timeout => [PipeEvent.broadcast "avatar" "unavailable"]
   | AvatarOutcome.error => [PipeEvent.broadcast "avatar" "error"]) ++
  [PipeEvent.greeting]

/-!
Concrete fixtures used by witnesses and counterexamples.
-/

/-- Fixture: a first registered user. -/
def userA : User :=
  { id := "u1", contact_number := "111", name := some "Alice A", email := some "a@x.com" }

/-- Fixture: a second registered user. -/
def userB : User :=
  { id := "u2", contact_number := "222", name := some "Bob B", email := some "b@x.com" }

/-- Fixture: a booked appointment owned by userA. -/
def apptA : Appointment :=
  { id := "a1", contact_number := "111",
    appointment_time := "2025-03-01T10:00:00", details := "checkup",
    status := ApptStatus.booked }

/-- Fixture: a booked appointment owned by userB. -/
def apptB : Appointment :=
  { id := "b1", contact_number := "222",
    appointment_time := "2025-03-02T10:00:00", details := "cleaning",
    status := ApptStatus.booked }

/-- Fixture: a store with both users and both appointments. -/
def dbTwo : DB :=
  { users := [userA, userB], appointments := [apptA, apptB],
    sessions := [⟨"s1", none⟩], messages := [] }

/-- Fixture: tool state of a session already bound to userA. -/
def stBound : ToolsState :=
  { user := some userA, session_id := "s1", chat := ChatCtx.init.set_user_id "u1" }

/-- Fixture: tool state of a session with no identified user. -/
def stNone : ToolsState :=
  { user := none, session_id := "s1", chat := ChatCtx.init }

/-!
Helper lemmas about the store layer.
-/

/-- When the user row cannot be resolved, get_appointments is empty. -/
theorem get_appointments_eq_nil (db : DB) (uid : String)
    (h : get_user_by_id db uid = none) : get_appointments db uid = [] := by
  unfold get_appointments
  rw [h]

/-- The ownership probe used by reschedule/cancel: some active
appointment of the resolved caller has the requested id iff a booked
row with that id and the caller's contact_number is in the store. -/
theorem get_appointments_any_id (db : DB) (uid aid : String) :
    (get_appointments db uid).any (fun a => a.id == aid) = true ↔
      ∃ owner a, get_user_by_id db uid = some owner ∧ a ∈ db.appointments ∧
        a.id = aid ∧ a.contact_number = owner.contact_number ∧
        a.status = ApptStatus.booked := by
  unfold get_appointments
  cases h : get_user_by_id db uid with
  | none => simp [h]
  | some owner =>
    simp only [h, Option.some.injEq, List.any_eq_true, List.mem_map,
      List.mem_filter, Bool.and_eq_true, beq_iff_eq]
    constructor
    · rintro ⟨x, ⟨a, ⟨hmem, hc, hs⟩, rfl⟩, hid⟩
      exact ⟨owner, a, rfl, hmem, hid, hc, hs⟩
    · rintro ⟨owner', a, howner, hmem, hid, hc, hs⟩
      cases howner
      exact ⟨_, ⟨a, ⟨hmem, hc, hs⟩, rfl⟩, hid⟩

/-- Pairing an elementwise-updated table against the original table. -/
theorem forall_zip_map {α : Type} (l : List α) (f : α → α) (P : α × α → Prop)
    (h : ∀ a ∈ l, P (f a, a)) : List.Forall P ((l.map f).zip l) := by
  induction l with
  | nil => trivial
  | cons a l ih =>
    rw [List.map_cons, List.zip_cons_cons, List.forall_cons]
    exact ⟨h a (List.mem_cons_self a l),
           ih (fun x hx => h x (List.mem_cons_of_mem a hx))⟩

/-- When every row carrying the probed id is cancelled, the ownership
probe of reschedule/cancel fails (get_appointments only surfaces
booked rows). -/
theorem get_appointments_any_id_false_of_cancelled (db : DB) (uid aid : String)
    (h : ∀ a ∈ db.appointments, a.id = aid → a.status = ApptStatus.cancelled) :
    (get_appointments db uid).any (fun a => a.id == aid) = false := by
  cases hx : (get_appointments db uid).any (fun a => a.id == aid) with
  | false => rfl
  | true =>
    exfalso
    obtain ⟨owner', a, _, hamem, haid, _, has⟩ :=
      (get_appointments_any_id db uid aid).mp hx
    rw [h a hamem haid] at has
    exact ApptStatus.noConfusion has

/-- An elementwise update that never changes contact_number preserves
the per-owner row count. -/
theorem filter_contact_length_map (l : List Appointment)
    (f : Appointment → Appointment)
    (hf : ∀ a, (f a).contact_number = a.contact_number) (c : String) :
    ((l.map f).filter (fun a => a.contact_number == c)).length =
      (l.filter (fun a => a.contact_number == c)).length := by
  induction l with
  | nil => rfl
  | cons a l ih =>
    rw [List.map_cons, List.filter_cons, List.filter_cons, hf]
    cases a.contact_number == c with
    | false => simpa using ih
    | true => simpa using ih

/-- C2: check_availability is a pure boolean over the store: it builds
the absolute timestamp date ++ "T" ++ time ++ ":00" and returns true
exactly when no appointment at that exact timestamp has status booked. -/
theorem check_availability_correct (db : DB) (date time_slot : String) :
    check_availability db date time_slot = true ↔
      ∀ a ∈ db.appointments,
        ¬(a.appointment_time = date ++ "T" ++ time_slot ++ ":00" ∧
           a.status = ApptStatus.booked) := by
  unfold check_availability
  simp only [beq_iff_eq, List.length_eq_zero, List.filter_eq_nil_iff,
    Bool.and_eq_true, not_and]

/-- C5: every booking, rescheduling, cancelling or appointment-retrieval
call made before a user is identified returns the caller-facing
identify-first message and leaves both the tool state and the store
unchanged. -/
theorem preidentification_operations_inert (st : ToolsState) (db : DB)
    (start_time : String) (duration : Nat) (appointment_id new_time : String)
    (h : st.user = none) :
    book_appointment st db start_time duration =
      ("Please identify the user first before booking.", st, db) ∧
    reschedule_user_appointment st db appointment_id new_time =
      ("Please identify the user first before rescheduling.", st, db) ∧
    retrieve_appointments st db =
      ("Please identify the user first.", st, db) ∧
    cancel_user_appointment st db appointment_id =
      ("Please identify the user first before canceling an appointment.", st, db) := by
  unfold book_appointment reschedule_user_appointment retrieve_appointments
    cancel_user_appointment
  rw [h]
  exact ⟨rfl, rfl, rfl, rfl⟩

/-- Witness for C5 at a concrete unidentified session over the
two-user fixture store. -/
theorem preidentification_operations_inert_witness :
    stNone.user = none ∧
    book_appointment stNone dbTwo "2025-03-01T10:00:00" 30 =
      ("Please identify the user first before booking.", stNone, dbTwo) ∧
    reschedule_user_appointment stNone dbTwo "a1" "2025-03-09T10:00:00" =
      ("Please identify the user first before rescheduling.", stNone, dbTwo) ∧
    retrieve_appointments stNone dbTwo =
      ("Please identify the user first.", stNone, dbTwo) ∧
    cancel_user_appointment stNone dbTwo "a1" =
      ("Please identify the user first before canceling an appointment.", stNone, dbTwo) :=
  ⟨rfl, preidentification_operations_inert stNone dbTwo "2025-03-01T10:00:00" 30
    "a1" "2025-03-09T10:00:00" rfl⟩

/-- C7: create_user_account creates a user whose name is
first_name ++ " " ++ last_name, the store-layer create_user returns
that created user, and as side effects the tool state binds it as the
identified user and sets it as the chat-context identity for message
logging. -/
theorem enroll_creates_named_user_and_binds (st : ToolsState) (db : DB)
    (contact_number first_name last_name email : String) :
    ∃ user : User,
      user.name = some (first_name ++ " " ++ last_name) ∧
      user.contact_number = contact_number ∧
      (create_user db contact_number (some (first_name ++ " " ++ last_name))
          (some email)).1 = some user ∧
      (create_user_account st db contact_number first_name last_name email).2.2.users =
        db.users ++ [user] ∧
      (create_user_account st db contact_number first_name last_name email).2.1.user =
        some user ∧
      (create_user_account st db contact_number first_name last_name email).2.1.chat.user_id =
        some user.id ∧
      (create_user_account st db contact_number first_name last_name email).1 =
        "Account created successfully! Welcome " ++ (first_name ++ " " ++ last_name) ++
          ". Your information has been securely saved." := by
  refine ⟨{ id := freshUserId db, contact_number := contact_number,
            name := some (first_name ++ " " ++ last_name),
            email := if email == "" then none else some email },
          rfl, rfl, rfl, rfl, rfl, rfl, ?_⟩
  show ("Account created successfully! Welcome " ++ (first_name ++ " " ++ last_name) ++
          ". Your information has been securely saved." : String) = _
  rw [String.append_assoc, String.append_assoc]

/-- C8: in every run of the startup sequencer, the avatar stage is
bounded by the fixed 20-second timeout constant, exactly one greeting
is emitted and it is the final event, the agent session start and the
avatar resolution broadcast (ready on success, unavailable on timeout,
error on exception) both occur in the trace — so avatar failure is
never fatal and the greeting never races avatar startup. -/
theorem pipeline_avatar_timeout_nonfatal (probe : StoreProbe) (avatar : AvatarOutcome) :
    avatarTimeoutSeconds = 20 ∧
    List.count PipeEvent.greeting (pipelineTrace probe avatar) = 1 ∧
    (pipelineTrace probe avatar).getLast? = some PipeEvent.greeting ∧
    PipeEvent.sessionStarted ∈ pipelineTrace probe avatar ∧
    PipeEvent.broadcast "avatar" (avatarResolution avatar) ∈ pipelineTrace probe avatar := by
  cases probe <;> cases avatar <;>
    exact ⟨rfl, by decide, by decide, by decide, by decide⟩

/-- C9: add_message always appends the turn to the in-memory context,
and writes a messages row to the store exactly when the context already
carries a bound user id; in particular every turn added before
identification — including the initial system message on the freshly
initialized context — leaves the store unchanged. -/
theorem add_message_persists_iff_identified (ctx : ChatCtx) (db : DB)
    (role content : String) :
    (ChatCtx.add_message ctx db role content).1.turns =
      ctx.turns ++ [(role, content)] ∧
    (ChatCtx.add_message ctx db role content).2 =
      (match ctx.user_id with
       | some uid => if uid == "" then db else save_message db uid role content
       | none => db) ∧
    (ChatCtx.add_message ChatCtx.init db role content).2 = db := by
  unfold ChatCtx.add_message
  refine ⟨?_, ?_, rfl⟩
  · cases h : ctx.user_id with
    | none => simp [h]
    | some uid => by_cases he : uid = "" <;> simp [h, he]
  · cases h : ctx.user_id with
    | none => simp [h]
    | some uid => by_cases he : uid = "" <;> simp [h, he]

/-- C10: fetch_slots returns the same hard-coded slot string on every
invocation, for every tool state and every store contents, and leaves
both unchanged — its result is not derived from the store. -/
theorem fetch_slots_constant_of_store (st st' : ToolsState) (db db' : DB) :
    (fetch_slots st db).1 = (fetch_slots st' db').1 ∧
    (fetch_slots st db).1 =
      "Available slots: Tomorrow at 10:00 AM, Tomorrow at 2:00 PM, and Friday at 11:00 AM." ∧
    (fetch_slots st db).2 = (st, db) :=
  ⟨rfl, rfl, rfl⟩

/-- C1: for an identified caller, rescheduling or cancelling an
appointment id whose owning contact_number differs from the caller's
resolved contact_number returns the not-found message and leaves the
tool state and the store unchanged; and when no appointment with that
id exists at all the two operations return exactly the same triples —
cross-user ids are inert and indistinguishable from absent ids. -/
theorem cross_user_appointment_ids_inert (st : ToolsState) (db : DB)
    (u owner : User) (appointment_id new_time : String)
    (hu : st.user = some u)
    (hown : get_user_by_id db u.id = some owner)
    (hforeign : ∀ a ∈ db.appointments, a.id = appointment_id →
      a.contact_number ≠ owner.contact_number) :
    reschedule_user_appointment st db appointment_id new_time =
      ("I couldn\x27t find that appointment. Please check your appointments and try again.",
        st, db) ∧
    cancel_user_appointment st db appointment_id =
      ("I couldn\x27t find an active appointment with that ID. Please check your appointments and try again.",
        st, db) ∧
    (∀ (st2 : ToolsState) (db2 : DB) (u2 : User), st2.user = some u2 →
      (∀ a ∈ db2.appointments, a.id ≠ appointment_id) →
      reschedule_user_appointment st2 db2 appointment_id new_time =
        ("I couldn\x27t find that appointment. Please check your appointments and try again.",
          st2, db2) ∧
      cancel_user_appointment st2 db2 appointment_id =
        ("I couldn\x27t find an active appointment with that ID. Please check your appointments and try again.",
          st2, db2)) := by
  have hex : (get_appointments db u.id).any (fun a => a.id == appointment_id) = false := by
    cases hx : (get_appointments db u.id).any (fun a => a.id == appointment_id) with
    | false => rfl
    | true =>
      exfalso
      obtain ⟨owner', a, hown', hmem, hid, hc, _⟩ :=
        (get_appointments_any_id db u.id appointment_id).mp hx
      rw [hown] at hown'
      injection hown' with hoe
      subst hoe
      exact hforeign a hmem hid hc
  refine ⟨?_, ?_, ?_⟩
  · unfold reschedule_user_appointment
    rw [hu]
    simp [hex]
  · unfold cancel_user_appointment
    rw [hu]
    simp [hex]
  · intro st2 db2 u2 hu2 habsent
    have hex2 : (get_appointments db2 u2.id).any (fun a => a.id == appointment_id) = false := by
      cases hx : (get_appointments db2 u2.id).any (fun a => a.id == appointment_id) with
      | false => rfl
      | true =>
        exfalso
        obtain ⟨owner', a, _, hmem, hid, _, _⟩ :=
          (get_appointments_any_id db2 u2.id appointment_id).mp hx
        exact habsent a hmem hid
    constructor
    · unfold reschedule_user_appointment
      rw [hu2]
      simp [hex2]
    · unfold cancel_user_appointment
      rw [hu2]
      simp [hex2]

/-- Witness for C1: in the two-user fixture, userA is identified and
appointment b1 is owned by userB; both mutations report not-found and
change nothing. -/
theorem cross_user_appointment_ids_inert_witness :
    stBound.user = some userA ∧
    get_user_by_id dbTwo userA.id = some userA ∧
    (∀ a ∈ dbTwo.appointments, a.id = "b1" →
      a.contact_number ≠ userA.contact_number) ∧
    reschedule_user_appointment stBound dbTwo "b1" "2025-03-09T10:00:00" =
      ("I couldn\x27t find that appointment. Please check your appointments and try again.",
        stBound, dbTwo) ∧
    cancel_user_appointment stBound dbTwo "b1" =
      ("I couldn\x27t find an active appointment with that ID. Please check your appointments and try again.",
        stBound, dbTwo) :=
  ⟨rfl, rfl, by decide,
   (cross_user_appointment_ids_inert stBound dbTwo userA userA "b1"
      "2025-03-09T10:00:00" rfl rfl (by decide)).1,
   (cross_user_appointment_ids_inert stBound dbTwo userA userA "b1"
      "2025-03-09T10:00:00" rfl rfl (by decide)).2.1⟩

/-- C4: a first cancel of a caller-owned active appointment succeeds,
sets status cancelled on the rows with that id without deleting any
row and without touching other rows, and a second cancel of the same
id in the same session reports not-found and leaves the store
unchanged — so the cancelled status persists and cancel is idempotent
from the caller's perspective. -/
theorem cancel_idempotent_effect (st : ToolsState) (db : DB) (u : User)
    (appointment_id : String)
    (hu : st.user = some u)
    (hactive : (get_appointments db u.id).any (fun a => a.id == appointment_id) = true) :
    (cancel_user_appointment st db appointment_id).1 =
      "Your appointment has been cancelled successfully. Is there anything else I can help you with?" ∧
    (cancel_user_appointment st db appointment_id).2.1 = st ∧
    ((cancel_user_appointment st db appointment_id).2.2).appointments.length =
      db.appointments.length ∧
    List.Forall (fun p : Appointment × Appointment =>
        (p.2.id = appointment_id → p.1 = { p.2 with status := ApptStatus.cancelled }) ∧
        (p.2.id ≠ appointment_id → p.1 = p.2))
      ((((cancel_user_appointment st db appointment_id).2.2).appointments).zip
        db.appointments) ∧
    cancel_user_appointment st ((cancel_user_appointment st db appointment_id).2.2)
        appointment_id =
      ("I couldn\x27t find an active appointment with that ID. Please check your appointments and try again.",
        st, (cancel_user_appointment st db appointment_id).2.2) := by
  obtain ⟨owner, a0, hown, hmem, hid, hc, hs⟩ :=
    (get_appointments_any_id db u.id appointment_id).mp hactive
  have hmemf : a0 ∈ db.appointments.filter (fun a => a.id == appointment_id) :=
    List.mem_filter.mpr ⟨hmem, by simp [hid]⟩
  have hneM : ((db.appointments.filter (fun a => a.id == appointment_id)).map
      (fun a => { a with status := ApptStatus.cancelled })).isEmpty = false := by
    cases hfl : db.appointments.filter (fun a => a.id == appointment_id) with
    | nil => rw [hfl] at hmemf; exact absurd hmemf (List.not_mem_nil a0)
    | cons x xs => rfl
  have hcall : cancel_user_appointment st db appointment_id =
      ("Your appointment has been cancelled successfully. Is there anything else I can help you with?",
        st,
        { db with appointments := (db.appointments.map (fun a => if a.id == appointment_id then { a with status := ApptStatus.cancelled } else a)) }) := by
    unfold cancel_user_appointment cancel_appointment
    rw [hu]
    simp [hactive, hneM]
  rw [hcall]
  refine ⟨rfl, rfl, by simp, ?_, ?_⟩
  · apply forall_zip_map
    intro a _
    show (a.id = appointment_id →
        (if a.id == appointment_id then { a with status := ApptStatus.cancelled } else a) =
          { a with status := ApptStatus.cancelled }) ∧
      (a.id ≠ appointment_id →
        (if a.id == appointment_id then { a with status := ApptStatus.cancelled } else a) = a)
    constructor
    · intro hida
      rw [if_pos (by simp [hida])]
    · intro hida
      rw [if_neg (by simp [hida])]
  · have hex : (get_appointments
        { db with appointments := (db.appointments.map (fun a => if a.id == appointment_id then { a with status := ApptStatus.cancelled } else a)) }
        u.id).any (fun a => a.id == appointment_id) = false := by
      apply get_appointments_any_id_false_of_cancelled
      intro a hamem haid
      obtain ⟨y, hymem, hy⟩ := List.mem_map.mp hamem
      by_cases hyid : y.id = appointment_id
      · rw [← hy]
        simp [hyid]
      · rw [← hy] at haid
        simp [hyid] at haid
    unfold cancel_user_appointment
    rw [hu]
    simp only [hex]
    rfl

/-- Witness for C4: userA cancels their own booked appointment a1;
the row turns cancelled and a second cancel reports not-found. -/
theorem cancel_idempotent_effect_witness :
    stBound.user = some userA ∧
    (get_appointments dbTwo userA.id).any (fun a => a.id == "a1") = true ∧
    (cancel_user_appointment stBound dbTwo "a1").1 =
      "Your appointment has been cancelled successfully. Is there anything else I can help you with?" ∧
    (cancel_user_appointment stBound ((cancel_user_appointment stBound dbTwo "a1").2.2) "a1").1 =
      "I couldn\x27t find an active appointment with that ID. Please check your appointments and try again." :=
  ⟨rfl, by decide,
   (cancel_idempotent_effect stBound dbTwo userA "a1" rfl (by decide)).1,
   by rw [(cancel_idempotent_effect stBound dbTwo userA "a1" rfl (by decide)).2.2.2.2]⟩

/-- C3: a successful reschedule of a caller-owned active appointment
keeps the total row count and every owner's row count unchanged, keeps
every row's id, status and owner, rewrites appointment_time to the new
value exactly on the booked rows carrying the requested id, and leaves
every other row — in particular every cancelled row — untouched: a
reschedule never creates a second row and never resurrects a cancelled
one. -/
theorem reschedule_frame_conditions (st : ToolsState) (db : DB) (u : User)
    (appointment_id new_time : String)
    (hu : st.user = some u)
    (hactive : (get_appointments db u.id).any (fun a => a.id == appointment_id) = true) :
    (reschedule_user_appointment st db appointment_id new_time).1 =
      "Your appointment has been rescheduled to " ++ new_time ++ "." ∧
    ((reschedule_user_appointment st db appointment_id new_time).2.2).appointments.length =
      db.appointments.length ∧
    (∀ c : String,
      (((reschedule_user_appointment st db appointment_id new_time).2.2).appointments.filter
          (fun a => a.contact_number == c)).length =
        (db.appointments.filter (fun a => a.contact_number == c)).length) ∧
    List.Forall (fun p : Appointment × Appointment =>
        p.1.id = p.2.id ∧ p.1.status = p.2.status ∧
        p.1.contact_number = p.2.contact_number ∧
        (p.2.status = ApptStatus.cancelled → p.1 = p.2) ∧
        (p.2.id = appointment_id → p.2.status = ApptStatus.booked →
          p.1.appointment_time = new_time) ∧
        (¬(p.2.id = appointment_id ∧ p.2.status = ApptStatus.booked) → p.1 = p.2))
      ((((reschedule_user_appointment st db appointment_id new_time).2.2).appointments).zip
        db.appointments) := by
  obtain ⟨owner, a0, hown, hmem, hid, hc, hs⟩ :=
    (get_appointments_any_id db u.id appointment_id).mp hactive
  have hmemf : a0 ∈ db.appointments.filter
      (fun a => a.id == appointment_id && a.status == ApptStatus.booked) :=
    List.mem_filter.mpr ⟨hmem, by simp [hid, hs]⟩
  have hheadE : ∃ z, ((db.appointments.filter
      (fun a => a.id == appointment_id && a.status == ApptStatus.booked)).map
        (fun a => { a with appointment_time := new_time })).head? = some z := by
    cases hfl : db.appointments.filter
        (fun a => a.id == appointment_id && a.status == ApptStatus.booked) with
    | nil => rw [hfl] at hmemf; exact absurd hmemf (List.not_mem_nil a0)
    | cons x xs => exact ⟨{ x with appointment_time := new_time }, rfl⟩
  obtain ⟨z, hz⟩ := hheadE
  have hcall : reschedule_user_appointment st db appointment_id new_time =
      ("Your appointment has been rescheduled to " ++ new_time ++ ".", st,
        { db with appointments := (db.appointments.map (fun a => if a.id == appointment_id && a.status == ApptStatus.booked then { a with appointment_time := new_time } else a)) }) := by
    unfold reschedule_user_appointment reschedule_appointment
    rw [hu]
    simp [hactive, hz]
  rw [hcall]
  refine ⟨rfl, by simp, ?_, ?_⟩
  · intro c
    apply filter_contact_length_map
    intro a
    by_cases hsel : (a.id == appointment_id && a.status == ApptStatus.booked) = true
    · rw [if_pos hsel]
    · rw [if_neg hsel]
  · apply forall_zip_map
    intro a _
    show (if a.id == appointment_id && a.status == ApptStatus.booked then { a with appointment_time := new_time } else a).id = a.id ∧
      (if a.id == appointment_id && a.status == ApptStatus.booked then { a with appointment_time := new_time } else a).status = a.status ∧
      (if a.id == appointment_id && a.status == ApptStatus.booked then { a with appointment_time := new_time } else a).contact_number = a.contact_number ∧
      (a.status = ApptStatus.cancelled →
        (if a.id == appointment_id && a.status == ApptStatus.booked then { a with appointment_time := new_time } else a) = a) ∧
      (a.id = appointment_id → a.status = ApptStatus.booked →
        (if a.id == appointment_id && a.status == ApptStatus.booked then { a with appointment_time := new_time } else a).appointment_time = new_time) ∧
      (¬(a.id = appointment_id ∧ a.status = ApptStatus.booked) →
        (if a.id == appointment_id && a.status == ApptStatus.booked then { a with appointment_time := new_time } else a) = a)
    by_cases hsel : (a.id == appointment_id && a.status == ApptStatus.booked) = true
    · have hsel' : a.id = appointment_id ∧ a.status = ApptStatus.booked := by
        simpa using hsel
      obtain ⟨hia, hsb⟩ := hsel'
      rw [if_pos hsel]
      refine ⟨rfl, rfl, rfl, ?_, ?_, ?_⟩
      · intro hcanc
        rw [hcanc] at hsb
        exact ApptStatus.noConfusion hsb
      · intro _ _
        rfl
      · intro hn
        exact absurd ⟨hia, hsb⟩ hn
    · rw [if_neg hsel]
      refine ⟨rfl, rfl, rfl, fun _ => rfl, ?_, fun _ => rfl⟩
      intro hid2 hst2
      exact absurd (by simp [hid2, hst2]) hsel

/-- Witness for C3: userA reschedules their own booked appointment a1
to a new time; the call succeeds. -/
theorem reschedule_frame_conditions_witness :
    stBound.user = some userA ∧
    (get_appointments dbTwo userA.id).any (fun a => a.id == "a1") = true ∧
    (reschedule_user_appointment stBound dbTwo "a1" "2025-03-09T10:00:00").1 =
      "Your appointment has been rescheduled to " ++ "2025-03-09T10:00:00" ++ "." ∧
    ((reschedule_user_appointment stBound dbTwo "a1" "2025-03-09T10:00:00").2.2).appointments.length =
      dbTwo.appointments.length :=
  ⟨rfl, by decide,
   (reschedule_frame_conditions stBound dbTwo userA "a1" "2025-03-09T10:00:00"
      rfl (by decide)).1,
   (reschedule_frame_conditions stBound dbTwo userA "a1" "2025-03-09T10:00:00"
      rfl (by decide)).2.1⟩

/-- C6 counterexample: in a session already bound to userA, a later
identify_user call with userB's contact number rebinds both the tool
state and the session row to userB — the code does not keep the first
bound user, so monotonic binding fails as stated. -/
theorem identify_user_rebinds_bound_session :
    stBound.user = some userA ∧
    (identify_user stBound dbTwo "222").2.1.user = some userB ∧
    some userB ≠ some userA ∧
    ((identify_user stBound dbTwo "222").2.2).sessions =
      [{ session_id := "s1", user_id := some "u2" }] := by
  decide

/-- C6 amended: the binding is never cleared — once a session is bound
to a user, a later identify_user call leaves it bound (to the same
user when the lookup misses, to the found user when it hits), and a
later create_user_account call leaves the tool-state binding set to
the newly created user while not touching the session_memory rows at
all; but a successful identification of a different existing user
rebinds the session rather than preserving the original binding. -/
theorem session_binding_never_cleared (st : ToolsState) (db : DB)
    (identifier : String) (u : User)
    (hu : st.user = some u) :
    (identify_user st db identifier).2.1.user ≠ none ∧
    (get_user_by_contact_or_email db identifier = none →
      (identify_user st db identifier).2.1.user = some u) ∧
    (∀ v, get_user_by_contact_or_email db identifier = some v →
      (identify_user st db identifier).2.1.user = some v) ∧
    (∀ contact_number first_name last_name email,
      (create_user_account st db contact_number first_name last_name email).2.1.user =
        (create_user db contact_number (some (first_name ++ " " ++ last_name))
          (some email)).1 ∧
      (create_user_account st db contact_number first_name last_name email).2.1.user ≠
        none ∧
      ((create_user_account st db contact_number first_name last_name email).2.2).sessions =
        db.sessions) := by
  refine ⟨?_, ?_, ?_, ?_⟩
  · unfold identify_user
    cases h : get_user_by_contact_or_email db identifier with
    | none => simp [hu]
    | some v => simp
  · intro h
    unfold identify_user
    rw [h]
    exact hu
  · intro v h
    unfold identify_user
    rw [h]
  · intro contact_number first_name last_name email
    refine ⟨rfl, ?_, rfl⟩
    unfold create_user_account create_user
    simp

/-- Witness for the amended C6 at a bound session and an identifier
matching no user. -/
theorem session_binding_never_cleared_witness :
    stBound.user = some userA ∧
    (identify_user stBound dbTwo "999").2.1.user ≠ none :=
  ⟨rfl, (session_binding_never_cleared stBound dbTwo "999" userA rfl).1⟩

end VoiceAgent
